import Mathlib

/-!
Verification development for the `track-follow` webhook notifier
(`src/server.js`).  The JavaScript source is shallowly embedded: JSON
payload values become the inductive `JSVal`, JS numbers (which may be
`NaN` after a `Number(...)` coercion) become `JNum`, payload objects
become Lean structures whose fields default to `JSVal.undefined` (a missing
key), and the process-wide mutable state (dedup set, user cache, last
profile snapshots) is threaded explicitly.  Outbound network calls
(the Neynar bulk-user lookup, the Telegram send) are modelled by
parameters: the lookup is a function from the fetched fid batch to an
optional list of records (`none` = network error or non-OK response),
and a Telegram send is recorded as the chat id it would be dispatched
to (a send is dispatched only when both the bot token and the chat id
are truthy, mirroring `sendTG`).
-/

namespace TrackFollow

/-- JSON-derived JavaScript values as they occur in the webhook payload
fields probed by `server.js`: `undefined` is an absent key, `null` a JSON
null, `num` a JSON number (as a rational), `str` a JSON string.
Nested objects are modelled by dedicated structures, not by `JSVal`. -/
inductive JSVal where
  | undefined : JSVal
  | null : JSVal
  | num : ℚ → JSVal
  | str : String → JSVal
deriving DecidableEq, Repr

/-- Result of the JavaScript `Number(...)` coercion: a real JS number or
`NaN`. -/
inductive JNum where
  | nan : JNum
  | val : ℚ → JNum
deriving DecidableEq, Repr

/-- JavaScript truthiness of a payload value (`undefined`, `null`, `0`
and `""` are falsy). -/
def jsTruthy : JSVal → Bool
  | .undefined => false
  | .null => false
  | .num q => q != 0
  | .str s => s != ""

/-- Truthiness of a coerced number (`NaN` and `0` are falsy). -/
def jnTruthy : JNum → Bool
  | .nan => false
  | .val q => q != 0

/-- Nullish test (`v == null` in loose JS equality: `undefined` or
`null`). -/
def isNullish : JSVal → Bool
  | .undefined => true
  | .null => true
  | _ => false

/-- The JS nullish-coalescing operator `a ?? b`. -/
def jnn (a b : JSVal) : JSVal :=
  match a with
  | .undefined => b
  | .null => b
  | v => v

/-- The JS logical-or `a || b` on payload values (falls through on any
falsy value, not only nullish ones). -/
def jor (a b : JSVal) : JSVal :=
  if jsTruthy a then a else b

/-- Numeric value of a list of decimal digit characters. -/
def natOfDigits : List Char → ℕ
  | [] => 0
  | c :: cs => natOfDigits cs + c.toNat.sub '0'.toNat * 10 ^ cs.length

/-- Parse an unsigned JS decimal literal (`"12"`, `"12.5"`, `".5"`,
`"12."`); exponent and hex forms are not modelled (never exercised by
the payload fields the claims are about). -/
def parseUnsigned (cs : List Char) : Option ℚ :=
  let ip := cs.takeWhile Char.isDigit
  let rest := cs.dropWhile Char.isDigit
  match rest with
  | [] => if ip.isEmpty then none else some (natOfDigits ip)
  | '.' :: fp =>
      if fp.all Char.isDigit ∧ ¬(ip.isEmpty ∧ fp.isEmpty) then
        some ((natOfDigits ip : ℚ) + (natOfDigits fp : ℚ) / 10 ^ fp.length)
      else none
  | _ => none

/-- Parse a signed JS decimal literal. -/
def parseDec (cs : List Char) : Option ℚ :=
  match cs with
  | '-' :: rest => (parseUnsigned rest).map Neg.neg
  | '+' :: rest => parseUnsigned rest
  | _ => parseUnsigned cs

/-- Strip leading and trailing whitespace, as JS `Number` does on string
input. -/
def trimWS (s : String) : String :=
  String.mk (((s.data.dropWhile Char.isWhitespace).reverse.dropWhile
    Char.isWhitespace).reverse)

/-- JS `Number(...)` on a string: the empty / all-whitespace string
coerces to `0`, a decimal literal to its value, anything else to
`NaN`. -/
def strToNum (s : String) : JNum :=
  let t := trimWS s
  if t = "" then .val 0
  else
    match parseDec t.data with
    | some q => .val q
    | none => .nan

/-- JS `Number(...)` on a payload value (`undefined → NaN`,
`null → 0`). -/
def jsToNumber : JSVal → JNum
  | .undefined => .nan
  | .null => .val 0
  | .num q => .val q
  | .str s => strToNum s

/-!
## IdempotencyFilter (`seenBefore`, server.js lines 103–113)

The JS `Set` iterates in insertion order, so it is modelled as a
duplicate-free list with the oldest element at the head;
`seen.values().next().value` is the head and `seen.delete(first)`
drops it.
-/

/-- One `seenBefore(id)` call: returns the boolean result and the new
contents of the `seen` set, embedding server.js lines 104–113. -/
def seenBefore (id : JSVal) (seen : List JSVal) : Bool × List JSVal :=
  if ¬ jsTruthy id then (false, seen)
  else if id ∈ seen then (true, seen)
  else
    let s := seen ++ [id]
    if s.length > 5000 then (false, s.drop 1)
    else (false, s)

/-- Fold a sequence of `seenBefore` calls over a starting set, keeping
only the set contents. -/
def runSeen (ids : List JSVal) (seen : List JSVal) : List JSVal :=
  ids.foldl (fun s i => (seenBefore i s).2) seen

example : (seenBefore (.str "e1") []).1 = false := by decide
example : (seenBefore (.str "e1") [.str "e1"]).1 = true := by decide
example : (seenBefore (.str "") [.str "x"]) = (false, [.str "x"]) := by decide
example : runSeen [.str "a", .str "b", .str "a"] [] = [.str "a", .str "b"] := by
  decide

/-!
## Payload object shapes

Each structure mirrors exactly the keys of the corresponding JSON
object that `server.js` probes; a missing key is `JSVal.undefined` (the
default).  Since the payload comes from `JSON.parse`, a present key is
never the JS value `undefined`, so `undefined` faithfully means "key
absent".  `otherKeys` counts keys of the object outside the probed set;
it only feeds `Object.keys(x).length` tests.
-/

/-- User-like payload object (`data.user`, `data.target_user`,
`data.actor`, `data.target`, `data.trader`, and the `before`/`after`
profile objects), carrying the keys server.js reads. -/
structure PObj where
  fid : JSVal := .undefined
  username : JSVal := .undefined
  display_name : JSVal := .undefined
  bio : JSVal := .undefined
  pfp_url : JSVal := .undefined
  location : JSVal := .undefined
  website : JSVal := .undefined
  otherKeys : ℕ := 0
deriving DecidableEq, Repr

/-- The six-field profile snapshot object built by server.js (cache
entries, `lastProfile` values, and the fetched `newObj`). -/
structure Snap where
  username : JSVal := .undefined
  display_name : JSVal := .undefined
  bio : JSVal := .undefined
  pfp_url : JSVal := .undefined
  location : JSVal := .undefined
  website : JSVal := .undefined
deriving DecidableEq, Repr

/-- View a stored snapshot object as a payload object (it has no `fid`
key and no extra keys). -/
def Snap.toPObj (s : Snap) : PObj :=
  { username := s.username, display_name := s.display_name, bio := s.bio,
    pfp_url := s.pfp_url, location := s.location, website := s.website }

/-- Keep the six profile keys of an object, as the
`lastProfile.set(fid, {...})` literal at server.js lines 342–349 does. -/
def PObj.toSnap (o : PObj) : Snap :=
  { username := o.username, display_name := o.display_name, bio := o.bio,
    pfp_url := o.pfp_url, location := o.location, website := o.website }

/-- Payload `parent` object (`c.parent?.hash`). -/
structure ParentObj where
  hash : JSVal := .undefined
deriving DecidableEq, Repr

/-- Payload `channel` object (`c.channel?.url`). -/
structure ChannelObj where
  url : JSVal := .undefined
deriving DecidableEq, Repr

/-- Cast-shaped object: the keys probed through `c` in
`extractCastCreated`, where `c` is `d.cast || d.message || d`. -/
structure CastObj where
  author : Option PObj := none
  user : Option PObj := none
  fid : JSVal := .undefined
  text : JSVal := .undefined
  content : JSVal := .undefined
  hash : JSVal := .undefined
  merkle_root : JSVal := .undefined
  cast_hash : JSVal := .undefined
  id : JSVal := .undefined
  hash_hex : JSVal := .undefined
  parent_hash : JSVal := .undefined
  parentHash : JSVal := .undefined
  parent : Option ParentObj := none
  parent_merkle_root : JSVal := .undefined
  replyParentMerkleRoot : JSVal := .undefined
  rootParentHash : JSVal := .undefined
  parent_url : JSVal := .undefined
  parentUri : JSVal := .undefined
  channel : Option ChannelObj := none
deriving DecidableEq, Repr

/-- Token object inside a net-transfer fungible (`...token.symbol`). -/
structure TokenObj where
  symbol : JSVal := .undefined
deriving DecidableEq, Repr

/-- Balance object inside a net-transfer fungible
(`...balance.in_usd`). -/
structure BalObj where
  in_usd : JSVal := .undefined
deriving DecidableEq, Repr

/-- A net-transfer side (`sending_fungible` / `receiving_fungible`). -/
structure Fungible where
  token : Option TokenObj := none
  balance : Option BalObj := none
deriving DecidableEq, Repr

/-- The `net_transfer` object of a trade transaction. -/
structure NetTransfer where
  sending_fungible : Option Fungible := none
  receiving_fungible : Option Fungible := none
deriving DecidableEq, Repr

/-- The `network` object of a trade transaction (`network?.name`). -/
structure NetworkObj where
  name : JSVal := .undefined
deriving DecidableEq, Repr

/-- The `transaction` object of a `trade.created` payload. -/
structure TxObj where
  hash : JSVal := .undefined
  network : Option NetworkObj := none
  net_transfer : Option NetTransfer := none
deriving DecidableEq, Repr

/-- The `data` object of a webhook event, with every key any of the
four extractors probes (the shapes share one object in JS, so they
share one structure here). -/
structure WData where
  actor_fid : JSVal := .undefined
  user : Option PObj := none
  user_fid : JSVal := .undefined
  follower_fid : JSVal := .undefined
  from_fid : JSVal := .undefined
  target_fid : JSVal := .undefined
  target_user : Option PObj := none
  followed_fid : JSVal := .undefined
  to_fid : JSVal := .undefined
  actor : Option PObj := none
  target : Option PObj := none
  user_username : JSVal := .undefined
  target_username : JSVal := .undefined
  timestamp : JSVal := .undefined
  event_timestamp : JSVal := .undefined
  fid : JSVal := .undefined
  updated_fields : Option (List String) := none
  fields : Option (List String) := none
  previous_user : Option PObj := none
  before : Option PObj := none
  old_user : Option PObj := none
  old : Option PObj := none
  after : Option PObj := none
  new_user : Option PObj := none
  new : Option PObj := none
  cast : Option CastObj := none
  message : Option CastObj := none
  author : Option PObj := none
  text : JSVal := .undefined
  content : JSVal := .undefined
  hash : JSVal := .undefined
  merkle_root : JSVal := .undefined
  cast_hash : JSVal := .undefined
  id : JSVal := .undefined
  hash_hex : JSVal := .undefined
  parent_hash : JSVal := .undefined
  parentHash : JSVal := .undefined
  parent : Option ParentObj := none
  parent_merkle_root : JSVal := .undefined
  replyParentMerkleRoot : JSVal := .undefined
  rootParentHash : JSVal := .undefined
  parent_url : JSVal := .undefined
  parentUri : JSVal := .undefined
  channel : Option ChannelObj := none
  trader : Option PObj := none
  transaction : Option TxObj := none
deriving DecidableEq, Repr

/-- A parsed webhook event (`evt`). -/
structure Evt where
  id : JSVal := .undefined
  type : JSVal := .undefined
  created_at : JSVal := .undefined
  data : Option WData := none
deriving DecidableEq, Repr

/-- Optional-chaining field read `o?.f` on a user-like object. -/
def pfld (o : Option PObj) (f : PObj → JSVal) : JSVal :=
  match o with
  | none => .undefined
  | some p => f p

/-- The `data` object `d`, i.e. `evt?.data || {}` (objects are truthy,
a missing `data` key gives the empty object). -/
def Evt.d (evt : Evt) : WData :=
  evt.data.getD {}

/-!
## EventNormalizer: the extraction helpers (server.js lines 116–228)
-/

/-- Result of `extractFollow`. -/
structure FollowInfo where
  actor_fid : JNum
  target_fid : JNum
  actor_username : JSVal
  target_username : JSVal
  ts : JSVal
deriving DecidableEq, Repr

/-- The actor-fid candidate chain
`d.actor_fid ?? d.user?.fid ?? d.user_fid ?? d.follower_fid ?? d.from_fid`
before the `Number(...)` coercion. -/
def followActorChain (d : WData) : JSVal :=
  jnn d.actor_fid (jnn (pfld d.user PObj.fid)
    (jnn d.user_fid (jnn d.follower_fid d.from_fid)))

/-- The target-fid candidate chain
`d.target_fid ?? d.target_user?.fid ?? d.followed_fid ?? d.to_fid`. -/
def followTargetChain (d : WData) : JSVal :=
  jnn d.target_fid (jnn (pfld d.target_user PObj.fid)
    (jnn d.followed_fid d.to_fid))

/-- Embeds `extractFollow` (server.js lines 116–137).  `now` is the
`Date.now()` millisecond value. -/
def extractFollow (now : ℚ) (evt : Evt) : FollowInfo :=
  let d := evt.d
  { actor_fid := jsToNumber (followActorChain d)
    target_fid := jsToNumber (followTargetChain d)
    actor_username := jnn (pfld d.user PObj.username)
      (jnn (pfld d.actor PObj.username) d.user_username)
    target_username := jnn (pfld d.target_user PObj.username)
      (jnn (pfld d.target PObj.username) d.target_username)
    ts := jnn d.timestamp (jnn d.event_timestamp
      (jnn evt.created_at (.num now))) }

/-- Result of `extractUserUpdated`.  The source also extracts a
`changesObj` (`d.changes || d.diff || d.updated || {}`), but the
handler never uses it, so it is not modelled. -/
structure UserUpdatedInfo where
  fid : JNum
  username : JSVal
  ts : JSVal
  updatedFields : Option (List String)
  before : PObj
  after : PObj
deriving DecidableEq, Repr

/-- The fid candidate chain of `extractUserUpdated`:
`d.user?.fid ?? d.fid ?? d.actor_fid ?? d.user_fid`. -/
def userUpdatedFidChain (d : WData) : JSVal :=
  jnn (pfld d.user PObj.fid) (jnn d.fid (jnn d.actor_fid d.user_fid))

/-- Embeds `extractUserUpdated` (server.js lines 153–166).  JS arrays
and objects are truthy (even when empty), so the `||` chains pick the
first present value. -/
def extractUserUpdated (now : ℚ) (evt : Evt) : UserUpdatedInfo :=
  let d := evt.d
  { fid := jsToNumber (userUpdatedFidChain d)
    username := pfld d.user PObj.username
    ts := jnn d.timestamp (jnn d.event_timestamp
      (jnn evt.created_at (.num now)))
    updatedFields := (d.updated_fields.orElse fun _ => d.fields)
    before := (((d.previous_user.orElse fun _ => d.before).orElse
      fun _ => d.old_user).orElse fun _ => d.old).getD {}
    after := (((d.user.orElse fun _ => d.after).orElse
      fun _ => d.new_user).orElse fun _ => d.new).getD {} }

/-- Result of `extractCastCreated`.  The source also computes
`channelParentUrl` (`c.parent_url ?? c.parentUri ?? c.channel?.url`)
but never uses it. -/
structure CastInfo where
  fid : JNum
  username : JSVal
  text : JSVal
  castHash : JSVal
  isRoot : Bool
  ts : JSVal
deriving DecidableEq, Repr

/-- The cast-shaped view of `d` itself, for the `d.cast || d.message
|| d` fallback: the same keys read directly off the data object. -/
def WData.asCast (d : WData) : CastObj :=
  { author := d.author, user := d.user, fid := d.fid, text := d.text,
    content := d.content, hash := d.hash, merkle_root := d.merkle_root,
    cast_hash := d.cast_hash, id := d.id, hash_hex := d.hash_hex,
    parent_hash := d.parent_hash, parentHash := d.parentHash,
    parent := d.parent, parent_merkle_root := d.parent_merkle_root,
    replyParentMerkleRoot := d.replyParentMerkleRoot,
    rootParentHash := d.rootParentHash, parent_url := d.parent_url,
    parentUri := d.parentUri, channel := d.channel }

/-- The object `c = d.cast || d.message || d` (objects are truthy). -/
def castOf (evt : Evt) : CastObj :=
  let d := evt.d
  match d.cast with
  | some c => c
  | none =>
    match d.message with
    | some m => m
    | none => d.asCast

/-- The parent-cast chain of server.js line 178:
`c.parent_hash ?? c.parentHash ?? c.parent?.hash ??
c.parent_merkle_root ?? c.replyParentMerkleRoot ?? c.rootParentHash`. -/
def parentCastHash (c : CastObj) : JSVal :=
  jnn c.parent_hash (jnn c.parentHash
    (jnn (match c.parent with | none => .undefined | some p => p.hash)
      (jnn c.parent_merkle_root
        (jnn c.replyParentMerkleRoot c.rootParentHash))))

/-- Root classification of server.js line 180: `!parentCastHash`. -/
def isRootOf (c : CastObj) : Bool :=
  ¬ jsTruthy (parentCastHash c)

/-- Embeds `extractCastCreated` (server.js lines 169–183). -/
def extractCastCreated (now : ℚ) (evt : Evt) : CastInfo :=
  let d := evt.d
  let c := castOf evt
  { fid := jsToNumber (jnn (pfld c.author PObj.fid)
      (jnn (pfld c.user PObj.fid) (jnn c.fid (pfld d.user PObj.fid))))
    username := jnn (pfld c.author PObj.username) (pfld d.user PObj.username)
    text := jnn c.text (jnn c.content d.text)
    castHash := jnn c.hash (jnn c.merkle_root
      (jnn c.cast_hash (jnn c.id c.hash_hex)))
    isRoot := isRootOf c
    ts := jnn d.timestamp (jnn d.event_timestamp
      (jnn evt.created_at (.num now))) }

/-- Result of `extractTradeCreated`.  `amountUsdc = none` models the
JS `null` initial value. -/
structure TradeInfo where
  traderFid : JNum
  username : JSVal
  amountUsdc : Option JNum
  tokenIn : JSVal
  tokenOut : JSVal
  txHash : JSVal
  chain : JSVal
  ts : JNum
deriving DecidableEq, Repr

/-- Optional chaining through a fungible's token symbol
(`x?.token?.symbol`). -/
def fungSymbol (f : Option Fungible) : JSVal :=
  match f with
  | none => .undefined
  | some fu =>
    match fu.token with
    | none => .undefined
    | some t => t.symbol

/-- Optional chaining through a fungible's USD balance
(`x?.balance?.in_usd`). -/
def fungInUsd (f : Option Fungible) : JSVal :=
  match f with
  | none => .undefined
  | some fu =>
    match fu.balance with
    | none => .undefined
    | some b => b.in_usd

/-- Embeds `extractTradeCreated` (server.js lines 187–228).  The
timestamp is `Number(evt.created_at) * 1000` when `created_at` is
truthy, else `Date.now()`. -/
def extractTradeCreated (now : ℚ) (evt : Evt) : TradeInfo :=
  let d := evt.d
  let tx := d.transaction.getD {}
  let net := tx.net_transfer.getD {}
  let send := net.sending_fungible
  let recv := net.receiving_fungible
  { traderFid := jsToNumber (pfld d.trader PObj.fid)
    username := pfld d.trader PObj.username
    amountUsdc :=
      if isNullish (fungInUsd send) then none
      else some (jsToNumber (fungInUsd send))
    tokenIn := fungSymbol send
    tokenOut := fungSymbol recv
    txHash := tx.hash
    chain := jnn (match tx.network with | none => .undefined | some n => n.name)
      (.str "unknown")
    ts :=
      if jsTruthy evt.created_at then
        match jsToNumber evt.created_at with
        | .nan => .nan
        | .val q => .val (q * 1000)
      else .val now }

/-!
## MessageFormatter helpers (`safeText`, server.js lines 230–234)
-/

/-- Decimal rendering of a rational; integers render as JS integers do,
non-integers as `num/den` (JS renders them as decimal floats — a
display-only divergence, no claim depends on it). -/
def ratToStr (q : ℚ) : String :=
  if q.den = 1 then toString q.num else toString q.num ++ "/" ++ toString q.den

/-- Template-literal rendering `String(v)` of a payload value. -/
def jsStr : JSVal → String
  | .undefined => "undefined"
  | .null => "null"
  | .num q => ratToStr q
  | .str s => s

/-- Rendering of a coerced number (`String(NaN) = "NaN"`). -/
def jnumToStr : JNum → String
  | .nan => "NaN"
  | .val q => ratToStr q

/-- The two chained replaces `replace(/</g,"&lt;").replace(/>/g,"&gt;")`
(character-wise: the first replace introduces no `>`). -/
def htmlEscape (s : String) : String :=
  String.mk (s.data.foldr
    (fun c acc =>
      if c = '<' then '&' :: 'l' :: 't' :: ';' :: acc
      else if c = '>' then '&' :: 'g' :: 't' :: ';' :: acc
      else c :: acc) [])

/-- Character-wise `toUpperCase` (same as `String.toUpper`, stated on
the character list so it evaluates by kernel reduction). -/
def toUpperStr (s : String) : String :=
  String.mk (s.data.map Char.toUpper)

/-- Character-wise `slice(0, n)` prefix. -/
def takeStr (s : String) (n : ℕ) : String :=
  String.mk (s.data.take n)

/-- Embeds `safeText(s, max)` (server.js lines 230–234): falsy input
gives `""`, otherwise HTML-escape and truncate to `max` characters with
an ellipsis. -/
def safeText (v : JSVal) (max : ℕ) : String :=
  if ¬ jsTruthy v then ""
  else
    let t := htmlEscape (jsStr v)
    if t.length > max then takeStr t max ++ "…" else t

/-!
## ProfileDiffEngine (the `user.updated` branch, server.js 289–355)
-/

/-- The canonical field list `keysToCheck` (server.js line 319). -/
def keysToCheck : List String :=
  ["username", "display_name", "bio", "pfp_url", "location", "website"]

/-- JS property access `o[k]` on a modelled user-like object; keys
outside the modelled set read as `undefined`. -/
def getField (o : PObj) (k : String) : JSVal :=
  if k = "fid" then o.fid
  else if k = "username" then o.username
  else if k = "display_name" then o.display_name
  else if k = "bio" then o.bio
  else if k = "pfp_url" then o.pfp_url
  else if k = "location" then o.location
  else if k = "website" then o.website
  else .undefined

/-- Optional-chaining access `o?.[k]`. -/
def optField (o : Option PObj) (k : String) : JSVal :=
  match o with
  | none => .undefined
  | some p => getField p k

/-- The value of `Object.keys(o).length` for a modelled payload object:
a probed key is present when its value is not `undefined` (JSON cannot
store the value `undefined`), plus the unprobed keys. -/
def objKeysLen (o : PObj) : ℕ :=
  ([o.fid, o.username, o.display_name, o.bio, o.pfp_url, o.location,
    o.website].countP (fun v => v ≠ .undefined)) + o.otherKeys

/-- The change-line key label `k.replace(/_/g, " ").toUpperCase()`. -/
def keyLabel (k : String) : String :=
  toUpperStr (String.mk (k.data.map fun c => if c = '_' then ' ' else c))

/-- Embeds the `addChange` closure (server.js lines 290–296): no line
when the values are strictly equal, otherwise one
`KEY: old → new` line with falsy-aware `(empty)` placeholders. -/
def addChange (k : String) (oldV newV : JSVal) : List String :=
  if oldV = newV then []
  else
    let beforeStr :=
      if ¬ isNullish oldV ∧ (jsStr oldV).length ≠ 0 then safeText oldV 160
      else "(empty)"
    let afterStr :=
      if ¬ isNullish newV ∧ (jsStr newV).length ≠ 0 then safeText newV 160
      else "(empty)"
    [keyLabel k ++ ": " ++ beforeStr ++ " → " ++ afterStr]

/-- The diff loop of server.js lines 322–328: for each canonical key,
call `addChange` unless both sides are `undefined`.  (`newObj` is
always an object by line 306–316, so the `oldObj || newObj` guard is
always true.) -/
def diffLines (oldObj : Option PObj) (newObj : PObj) : List String :=
  keysToCheck.foldl
    (fun acc k =>
      let ov := optField oldObj k
      let nv := getField newObj k
      if ov ≠ .undefined ∨ nv ≠ .undefined then acc ++ addChange k ov nv else acc)
    []

/-- One line of the updated-fields fallback (server.js lines 332–337):
`KEY: current-value` (no underscore replacement here, unlike
`addChange`). -/
def currentValueLine (newObj : PObj) (k : String) : String :=
  toUpperStr k ++ ": " ++
    (if ¬ isNullish (getField newObj k) then safeText (getField newObj k) 160
     else "(empty)")

/-- The full change-line computation of the `user.updated` branch
(server.js lines 289–355): the diff loop, then the updated-fields
current-value fallback when no line was produced, then the generic
placeholder when still empty. -/
def userUpdatedLines (oldObj : Option PObj) (newObj : PObj)
    (updatedFields : Option (List String)) : List String :=
  let cl := diffLines oldObj newObj
  let cl :=
    match cl, updatedFields with
    | [], some (k :: ks) => (k :: ks).map (currentValueLine newObj)
    | _, _ => cl
  if cl = [] then ["(profile fields updated)"] else cl

/-!
## ProfileCache (`fetchUsersByFids`, server.js lines 44–89)

The Neynar bulk-user call is modelled by a parameter
`lkp : List JNum → Option (List URec)`: applied to the batch of fids
put on the request, it returns the record list of a successful
response (`js.users || js.result || js.data || []`) or `none` for a
network error / non-OK response.  `userCache` is a JS `Map`, modelled
as an insertion-ordered association list (`Map.set` overwrites in
place or appends; SameValueZero key equality is `DecidableEq JNum`,
including `NaN = NaN`).
-/

/-- Nested `profile` object of a Neynar user record. -/
structure ProfObj where
  bio : JSVal := .undefined
  location : JSVal := .undefined
  url : JSVal := .undefined
  website : JSVal := .undefined
deriving DecidableEq, Repr

/-- Nested `pfp` object of a Neynar user record. -/
structure PfpObj where
  url : JSVal := .undefined
deriving DecidableEq, Repr

/-- A user record of the bulk-lookup response, with the keys server.js
reads. -/
structure URec where
  fid : JSVal := .undefined
  username : JSVal := .undefined
  display_name : JSVal := .undefined
  bio : JSVal := .undefined
  about_me : JSVal := .undefined
  pfp_url : JSVal := .undefined
  location : JSVal := .undefined
  website : JSVal := .undefined
  profile : Option ProfObj := none
  pfp : Option PfpObj := none
deriving DecidableEq, Repr

/-- A `userCache` entry: the snapshot fields plus the fetch
timestamp. -/
structure CacheEntry where
  snap : Snap
  ts : ℚ
deriving DecidableEq, Repr

/-- `Map.get` on an insertion-ordered association list. -/
def alookup {α : Type} : List (JNum × α) → JNum → Option α
  | [], _ => none
  | (k', v) :: rest, k => if k' = k then some v else alookup rest k

/-- `Map.set` on an insertion-ordered association list: overwrite the
existing key in place, else append. -/
def aset {α : Type} : List (JNum × α) → JNum → α → List (JNum × α)
  | [], k, v => [(k, v)]
  | (k', v') :: rest, k, v =>
    if k' = k then (k, v) :: rest else (k', v') :: aset rest k v

/-- The cache TTL `CACHE_TTL_MS = 10 * 60 * 1000` (server.js line
47). -/
def CACHE_TTL_MS : ℚ := 10 * 60 * 1000

/-- The snapshot stored for a fetched record (server.js lines 64–73),
with its `||` fallbacks through the nested `profile`/`pfp` objects. -/
def recSnap (u : URec) : Snap :=
  { username := u.username
    display_name := u.display_name
    bio := jor u.bio (jor
      (match u.profile with | none => .undefined | some p => p.bio) u.about_me)
    pfp_url := jor u.pfp_url
      (match u.pfp with | none => .undefined | some p => p.url)
    location := jor u.location
      (match u.profile with | none => .undefined | some p => p.location)
    website := jor u.website (jor
      (match u.profile with | none => .undefined | some p => p.url)
      (match u.profile with | none => .undefined | some p => p.website)) }

/-- The placeholder result `{username: "fid:<fid>", display_name:
"fid:<fid>"}` for a fid with no cache entry (server.js line 86). -/
def placeholderSnap (fid : JNum) : Snap :=
  { username := .str ("fid:" ++ jnumToStr fid)
    display_name := .str ("fid:" ++ jnumToStr fid) }

/-- The `need` list (server.js lines 50–55): requested fids with no
cache entry or an entry strictly older than the TTL. -/
def needOf (now : ℚ) (cache : List (JNum × CacheEntry)) (fids : List JNum) :
    List JNum :=
  fids.filter fun fid =>
    match alookup cache fid with
    | none => true
    | some c => now - c.ts > CACHE_TTL_MS

/-- Result of one `fetchUsersByFids` invocation: the `out` mapping, the
new cache, and the batched lookup calls issued (each element is the
fid batch of one HTTP request). -/
structure FetchResult where
  out : List (JNum × Snap)
  cache : List (JNum × CacheEntry)
  calls : List (List JNum)
deriving Repr

/-- Embeds `fetchUsersByFids` (server.js lines 48–89). -/
def fetchUsersByFids (lkp : List JNum → Option (List URec)) (now : ℚ)
    (cache : List (JNum × CacheEntry)) (fids : List JNum) : FetchResult :=
  if fids = [] then { out := [], cache := cache, calls := [] }
  else
    let need := needOf now cache fids
    let cache' :=
      if need = [] then cache
      else
        match lkp need with
        | some recs =>
            recs.foldl
              (fun acc u =>
                aset acc (jsToNumber u.fid) { snap := recSnap u, ts := now })
              cache
        | none => cache
    { out := fids.map fun fid =>
        (fid, match alookup cache' fid with
              | some c => c.snap
              | none => placeholderSnap fid)
      cache := cache'
      calls := if need = [] then [] else [need] }

/-!
## SignatureVerifier, Dispatcher and the webhook handler
(server.js lines 12–17, 94–100, 237–441)
-/

/-- The environment configuration the handler reads.  `neynarSecret`
is `process.env.NEYNAR_WEBHOOK_SECRET || ""`; the chat identities are
raw environment variables (`none` = unset). -/
structure Config where
  tgToken : Option String := none
  chatFollowEnv : Option String := none
  chatActivityEnv : Option String := none
  chatTradeEnv : Option String := none
  neynarSecret : String := ""
deriving DecidableEq, Repr

/-- Truthiness of an environment value (unset or empty is falsy). -/
def envTruthy : Option String → Bool
  | none => false
  | some s => s != ""

/-- `TG_CHAT_ID_ACTIVITY = process.env.TELEGRAM_CHAT_ID_ACTIVITY ||
TG_CHAT_ID_FOLLOW` (server.js line 16). -/
def tgChatIdActivity (cfg : Config) : Option String :=
  if envTruthy cfg.chatActivityEnv then cfg.chatActivityEnv
  else cfg.chatFollowEnv

/-- A Telegram send (server.js lines 18–37): dispatched only when both
the bot token and the chat id are truthy; the dispatched chat id is
recorded, a falsy token or chat id is a silent no-op. -/
def sendTGRecord (cfg : Config) (chatId : Option String) : List String :=
  match chatId with
  | none => []
  | some c => if envTruthy cfg.tgToken ∧ c ≠ "" then [c] else []

/-- Embeds `verifySignature` (server.js lines 94–100).  `hmac` is the
HMAC-SHA512 hex digest function, abstracted as a parameter; a missing
or empty signature header, or an empty configured secret, passes
unconditionally. -/
def verifySignature (hmac : String → String → String) (secret : String)
    (sigHeader : Option String) (body : String) : Bool :=
  match sigHeader with
  | none => true
  | some sig =>
    if sig = "" ∨ secret = "" then true
    else hmac secret body == sig

/-- The process-wide mutable state: the dedup set, the user cache and
the last-known profile snapshots. -/
structure ServerState where
  seen : List JSVal := []
  cache : List (JNum × CacheEntry) := []
  lastProfile : List (JNum × Snap) := []
deriving Repr

/-- The `follow.created` / `follow.deleted` branch (server.js lines
245–276): missing fids send a diagnostic to the default (follow) chat;
otherwise usernames are resolved (fetching when either is missing) and
the notification goes to `TG_CHAT_ID_FOLLOW`. -/
def followBranch (cfg : Config) (lkp : List JNum → Option (List URec))
    (now : ℚ) (st : ServerState) (evt : Evt) :
    ℕ × List String × ServerState :=
  let f := extractFollow now evt
  if ¬ jnTruthy f.actor_fid ∨ ¬ jnTruthy f.target_fid then
    (200, sendTGRecord cfg cfg.chatFollowEnv, st)
  else
    let st :=
      if ¬ jsTruthy f.actor_username ∨ ¬ jsTruthy f.target_username then
        let r := fetchUsersByFids lkp now st.cache [f.actor_fid, f.target_fid]
        { st with cache := r.cache }
      else st
    (200, sendTGRecord cfg cfg.chatFollowEnv, st)

/-- The `user.updated` branch (server.js lines 277–363): resolve the
username (fetch when missing), resolve `oldObj` (payload `before`, else
`lastProfile`), resolve `newObj` (payload `after`, else a fetch-built
snapshot), compute the change lines, overwrite `lastProfile`, and send
to the activity chat. -/
def userUpdatedBranch (cfg : Config) (lkp : List JNum → Option (List URec))
    (now : ℚ) (st : ServerState) (evt : Evt) :
    ℕ × List String × ServerState :=
  let x := extractUserUpdated now evt
  let st :=
    if ¬ jsTruthy x.username ∧ jnTruthy x.fid then
      let r := fetchUsersByFids lkp now st.cache [x.fid]
      { st with cache := r.cache }
    else st
  let oldObj0 : Option PObj :=
    if objKeysLen x.before > 0 then some x.before else none
  let newObj0 : Option PObj :=
    if objKeysLen x.after > 0 then some x.after else none
  let oldObj : Option PObj :=
    match oldObj0 with
    | some o => some o
    | none =>
      if jnTruthy x.fid then (alookup st.lastProfile x.fid).map Snap.toPObj
      else none
  let (newObj, st) :=
    match newObj0 with
    | some o => (o, st)
    | none =>
      let r := fetchUsersByFids lkp now st.cache [x.fid]
      let snap := ((alookup r.out x.fid).getD {})
      (snap.toPObj, { st with cache := r.cache })
  let lines := userUpdatedLines oldObj newObj x.updatedFields
  let st :=
    if jnTruthy x.fid then
      { st with lastProfile := aset st.lastProfile x.fid newObj.toSnap }
    else st
  let _ := lines
  (200, sendTGRecord cfg (tgChatIdActivity cfg), st)

/-- The `cast.created` branch (server.js lines 364–384): non-root casts
are skipped silently; root casts are sent to the activity chat after
resolving the username (fetch when missing). -/
def castBranch (cfg : Config) (lkp : List JNum → Option (List URec))
    (now : ℚ) (st : ServerState) (evt : Evt) :
    ℕ × List String × ServerState :=
  let c := extractCastCreated now evt
  if ¬ c.isRoot then (200, [], st)
  else
    let st :=
      if ¬ jsTruthy c.username ∧ jnTruthy c.fid then
        { st with cache := (fetchUsersByFids lkp now st.cache [c.fid]).cache }
      else st
    (200, sendTGRecord cfg (tgChatIdActivity cfg), st)

/-- The `trade.created` branch (server.js lines 385–434): a falsy
trader fid is skipped; otherwise the username is resolved (fetch when
missing) and the notification goes to `TG_CHAT_ID_TRADE` — the raw,
non-defaulted environment value. -/
def tradeBranch (cfg : Config) (lkp : List JNum → Option (List URec))
    (now : ℚ) (st : ServerState) (evt : Evt) :
    ℕ × List String × ServerState :=
  let t := extractTradeCreated now evt
  if ¬ jnTruthy t.traderFid then (200, [], st)
  else
    let st :=
      if ¬ jsTruthy t.username ∧ jnTruthy t.traderFid then
        { st with cache :=
            (fetchUsersByFids lkp now st.cache [t.traderFid]).cache }
      else st
    (200, sendTGRecord cfg cfg.chatTradeEnv, st)

/-- The handler body after a successful parse (server.js lines
243–436): dedup check, then dispatch on `evt.type`; every path ends in
`res.send("ok")`, i.e. status 200.  The result is (status, dispatched
Telegram chat ids, new state). -/
def handleParsed (cfg : Config) (lkp : List JNum → Option (List URec))
    (now : ℚ) (st : ServerState) (evt : Evt) :
    ℕ × List String × ServerState :=
  let (dup, seen') := seenBefore evt.id st.seen
  let st := { st with seen := seen' }
  if dup then (200, [], st)
  else if evt.type = .str "follow.created" ∨ evt.type = .str "follow.deleted"
    then followBranch cfg lkp now st evt
  else if evt.type = .str "user.updated" then
    userUpdatedBranch cfg lkp now st evt
  else if evt.type = .str "cast.created" then castBranch cfg lkp now st evt
  else if evt.type = .str "trade.created" then tradeBranch cfg lkp now st evt
  else (200, [], st)

/-- The full `POST /webhooks/neynar` handler (server.js lines 237–441).
`parsed` is the result of `JSON.parse` on the raw body (`none` when the
parse throws). `JSON.parse` is the only statement inside the `try`
block that can throw — the extractors are total, and `sendTG` /
`fetchUsersByFids` swallow their own errors — so the `catch` block
(status 500) fires exactly on a parse failure. -/
def webhookPost (cfg : Config) (lkp : List JNum → Option (List URec))
    (hmac : String → String → String) (now : ℚ) (st : ServerState)
    (sigHeader : Option String) (body : String) (parsed : Option Evt) :
    ℕ × List String × ServerState :=
  if ¬ verifySignature hmac cfg.neynarSecret sigHeader body then
    (401, [], st)
  else
    match parsed with
    | none => (500, [], st)
    | some evt => handleParsed cfg lkp now st evt

/-!
## Theorems about the IdempotencyFilter (claims C4 and C5)
-/

/-- One `seenBefore` call never leaves more than 5000 ids recorded. -/
theorem seenBefore_le_5000 (id : JSVal) (s : List JSVal)
    (h : s.length ≤ 5000) : ((seenBefore id s).2).length ≤ 5000 := by
  unfold seenBefore
  split
  · exact h
  · split
    · exact h
    · dsimp only
      split
      · simp only [List.length_drop, List.length_append, List.length_cons,
          List.length_nil]
        omega
      · next hle =>
          simp only [List.length_append, List.length_cons, List.length_nil,
            gt_iff_lt, not_lt] at hle ⊢
          omega

/-- Folding `seenBefore` preserves the 5000 bound. -/
theorem runSeen_le_5000 (ids : List JSVal) :
    ∀ s : List JSVal, s.length ≤ 5000 → (runSeen ids s).length ≤ 5000 := by
  induction ids with
  | nil => intro s h; simpa [runSeen] using h
  | cons a t ih =>
      intro s h
      have : runSeen (a :: t) s = runSeen t ((seenBefore a s).2) := by
        simp [runSeen]
      rw [this]
      exact ih _ (seenBefore_le_5000 a s h)

/-- While capacity is not exceeded, distinct truthy ids simply append:
running `seenBefore` over `ids` from state `s` yields `s ++ ids`. -/
theorem runSeen_fill (ids : List JSVal) :
    ∀ s : List JSVal, (s ++ ids).Nodup → (∀ i ∈ ids, jsTruthy i) →
      (s ++ ids).length ≤ 5000 → runSeen ids s = s ++ ids := by
  induction ids with
  | nil => intro s _ _ _; simp [runSeen]
  | cons a t ih =>
      intro s hnd ht hlen
      have hstep : runSeen (a :: t) s = runSeen t ((seenBefore a s).2) := by
        simp [runSeen]
      have hta : jsTruthy a := ht a (by simp)
      have hmem : a ∉ s := by
        have hdisj := List.disjoint_of_nodup_append hnd
        exact fun hin => hdisj hin (by simp)
      have hlen1 : (s ++ [a]).length ≤ 5000 := by
        simp only [List.length_append, List.length_cons] at hlen ⊢
        simp only [List.length_nil]
        omega
      have hsb : (seenBefore a s).2 = s ++ [a] := by
        unfold seenBefore
        simp only [hta, not_true_eq_false, if_false, hmem, if_neg,
          if_true]
        split
        · next h => omega
        · rfl
      rw [hstep, hsb, ih]
      · simp
      · simpa using hnd
      · intro i hi; exact ht i (by simp [hi])
      · simpa using hlen

/-- Claim C4: the dedup record never holds more than 5000 ids, and on
5001 distinct truthy ids the eviction is FIFO — the final record is
exactly the last 5000 inserted (the tail), the first-inserted id is
absent and the last-inserted id is present. -/
theorem claim4_dedup_capacity_fifo :
    (∀ ids : List JSVal, (runSeen ids []).length ≤ 5000)
    ∧ (∀ ids : List JSVal, ids.length = 5001 → ids.Nodup →
        (∀ i ∈ ids, jsTruthy i) →
        runSeen ids [] = ids.tail
        ∧ (runSeen ids []).length = 5000
        ∧ (∀ h, ids.head? = some h → h ∉ runSeen ids [])
        ∧ (∀ l, ids.getLast? = some l → l ∈ runSeen ids [])) := by
  constructor
  · intro ids
    exact runSeen_le_5000 ids [] (by simp)
  · intro ids hlen hnd ht
    have hne : ids ≠ [] := by intro h; rw [h] at hlen; simp at hlen
    have hsplit := List.dropLast_append_getLast hne
    set x := ids.getLast hne with hx
    set front := ids.dropLast with hf
    have hfl : front.length = 5000 := by
      rw [hf, List.length_dropLast, hlen]
    have hrun : runSeen ids [] = runSeen [x] (runSeen front []) := by
      rw [← hsplit]; simp [runSeen, List.foldl_append]
    have hfront : runSeen front [] = front := by
      apply runSeen_fill
      · simp only [List.nil_append]
        exact hnd.sublist (List.dropLast_sublist ids)
      · intro i hi
        exact ht i ((List.dropLast_sublist ids).subset hi)
      · simp [hfl]
    have hxt : jsTruthy x := ht x (List.getLast_mem hne)
    have hxmem : x ∉ front := by
      have hnd' : (front ++ [x]).Nodup := by rw [hsplit]; exact hnd
      have hdisj := List.disjoint_of_nodup_append hnd'
      exact fun hin => hdisj hin (by simp)
    have hlast : runSeen [x] front = (front ++ [x]).drop 1 := by
      unfold runSeen seenBefore
      simp only [List.foldl_cons, List.foldl_nil, hxt, not_true_eq_false,
        if_false, hxmem, if_neg, if_true]
      split
      · rfl
      · next h =>
          exfalso
          simp only [List.length_append, List.length_cons, List.length_nil,
            hfl] at h
          omega
    have hmain : runSeen ids [] = ids.tail := by
      rw [hrun, hfront, hlast, hsplit, List.drop_one]
    refine ⟨hmain, ?_, ?_, ?_⟩
    · rw [hmain]
      cases ids with
      | nil => simp at hlen
      | cons a t => simp only [List.tail_cons]
                    simp only [List.length_cons] at hlen
                    omega
    · intro h hh
      rw [hmain]
      cases ids with
      | nil => simp at hlen
      | cons a t =>
          simp only [List.head?_cons, Option.some.injEq] at hh
          subst hh
          simp only [List.tail_cons]
          exact (List.nodup_cons.mp hnd).1
    · intro l hl
      rw [hmain]
      cases ids with
      | nil => simp at hlen
      | cons a t =>
          have htne : t ≠ [] := by
            intro h; rw [h] at hlen; simp at hlen
          rw [List.getLast?_eq_getLast _ (by simp), List.getLast_cons htne]
            at hl
          simp only [Option.some.injEq] at hl
          subst hl
          simp only [List.tail_cons]
          exact List.getLast_mem htne

/-- The 5001 pairwise-distinct truthy ids `1, 2, …, 5001` used as the
concrete witness input for claim C4. -/
def witnessIds : List JSVal :=
  (List.range 5001).map fun n => JSVal.num ((n + 1 : ℕ) : ℚ)

/-- Witness for claim C4 at 5001 concrete distinct ids. -/
theorem claim4_witness :
    witnessIds.length = 5001 ∧ witnessIds.Nodup
    ∧ (∀ i ∈ witnessIds, jsTruthy i)
    ∧ runSeen witnessIds [] = witnessIds.tail := by
  have h1 : witnessIds.length = 5001 := by simp [witnessIds]
  have h2 : witnessIds.Nodup := by
    refine List.Nodup.map ?_ (List.nodup_range 5001)
    intro a b h
    have h' : ((a + 1 : ℕ) : ℚ) = ((b + 1 : ℕ) : ℚ) := JSVal.num.inj h
    exact_mod_cast Nat.add_right_cancel (Nat.cast_injective h')
  have h3 : ∀ i ∈ witnessIds, jsTruthy i := by
    intro i hi
    simp only [witnessIds, List.mem_map, List.mem_range] at hi
    obtain ⟨n, _, rfl⟩ := hi
    simp only [jsTruthy, bne_iff_ne, ne_eq]
    exact_mod_cast Nat.succ_ne_zero n
  exact ⟨h1, h2, h3,
    (claim4_dedup_capacity_fifo.2 witnessIds h1 h2 h3).1⟩

/-- Claim C5: `seenBefore` on a falsy id reports "not seen" and records
nothing; on a truthy unrecorded id it reports "not seen", records the
id, and an immediate second call reports "seen" without mutating the
record. -/
theorem claim5_seenBefore_contract (id : JSVal) (s : List JSVal) :
    (jsTruthy id = false → seenBefore id s = (false, s))
    ∧ (jsTruthy id = true → id ∉ s →
        (seenBefore id s).1 = false
        ∧ id ∈ (seenBefore id s).2
        ∧ seenBefore id (seenBefore id s).2 = (true, (seenBefore id s).2)) := by
  constructor
  · intro h
    simp [seenBefore, h]
  · intro ht hmem
    have hfst : (seenBefore id s).1 = false := by
      unfold seenBefore
      simp only [ht, not_true_eq_false, if_false, hmem, if_neg, if_true]
      split <;> rfl
    have hin : id ∈ (seenBefore id s).2 := by
      unfold seenBefore
      simp only [ht, not_true_eq_false, if_false, hmem, if_neg, if_true]
      split
      · next h =>
          have hlen : 1 ≤ s.length := by
            simp only [List.length_append, List.length_cons,
              List.length_nil] at h
            omega
          rw [List.drop_append_of_le_length hlen]
          simp
      · simp
    refine ⟨hfst, hin, ?_⟩
    generalize hgen : (seenBefore id s).2 = s₂ at hin ⊢
    unfold seenBefore
    simp [ht, hin]

/-- Witness for claim C5 at the concrete id `"e1"` and the empty
record. -/
theorem claim5_witness :
    jsTruthy (.str "e1") = true ∧ (JSVal.str "e1") ∉ ([] : List JSVal)
    ∧ ((seenBefore (.str "e1") []).1 = false
        ∧ (JSVal.str "e1") ∈ (seenBefore (.str "e1") []).2
        ∧ seenBefore (.str "e1") (seenBefore (.str "e1") []).2
            = (true, (seenBefore (.str "e1") []).2)) :=
  ⟨by decide, by decide,
    (claim5_seenBefore_contract (.str "e1") []).2 (by decide) (by decide)⟩

/-!
## Theorems about the ProfileCache (claims C6 and C10)
-/

/-- Setting one cache key leaves lookups of other keys unchanged. -/
theorem alookup_aset_ne {α : Type} (c : List (JNum × α)) (k fid : JNum)
    (v : α) (h : k ≠ fid) : alookup (aset c k v) fid = alookup c fid := by
  induction c with
  | nil => simp [aset, alookup, h]
  | cons p rest ih =>
      obtain ⟨k', v'⟩ := p
      by_cases hk : k' = k
      · subst hk
        simp [aset, alookup, h]
      · simp only [aset, if_neg hk, alookup]
        split
        · rfl
        · exact ih

/-- Folding `Map.set` over response records leaves every fid outside
the response's fid set unchanged. -/
theorem alookup_foldl_aset (recs : List URec) (now : ℚ) (fid : JNum) :
    ∀ cache : List (JNum × CacheEntry),
      fid ∉ recs.map (fun u => jsToNumber u.fid) →
      alookup (recs.foldl
        (fun acc u => aset acc (jsToNumber u.fid)
          { snap := recSnap u, ts := now }) cache) fid
      = alookup cache fid := by
  induction recs with
  | nil => intro cache _; rfl
  | cons u rest ih =>
      intro cache hmem
      simp only [List.map_cons, List.mem_cons, not_or] at hmem
      simp only [List.foldl_cons]
      rw [ih _ hmem.2, alookup_aset_ne _ _ _ _ (fun h => hmem.1 h.symm)]

/-- Claim C6: one `fetchUsersByFids` invocation issues at most one
batched lookup call, every issued batch is exactly the `need` list, a
requested fid whose cache entry is younger than the TTL is in no
issued batch, and a requested fid whose entry is older than the TTL
is in an issued batch. -/
theorem claim6_cache_ttl_batching (lkp : List JNum → Option (List URec))
    (now : ℚ) (cache : List (JNum × CacheEntry)) (fids : List JNum) :
    (fetchUsersByFids lkp now cache fids).calls.length ≤ 1
    ∧ (∀ b ∈ (fetchUsersByFids lkp now cache fids).calls,
        b = needOf now cache fids)
    ∧ (∀ fid ∈ fids, ∀ c, alookup cache fid = some c →
        now - c.ts < CACHE_TTL_MS →
        ∀ b ∈ (fetchUsersByFids lkp now cache fids).calls, fid ∉ b)
    ∧ (∀ fid ∈ fids, ∀ c, alookup cache fid = some c →
        now - c.ts > CACHE_TTL_MS →
        ∃ b ∈ (fetchUsersByFids lkp now cache fids).calls, fid ∈ b) := by
  have hcalls : (fetchUsersByFids lkp now cache fids).calls
      = if fids = [] then []
        else if needOf now cache fids = [] then []
        else [needOf now cache fids] := by
    unfold fetchUsersByFids
    split
    · next h => simp [h]
    · next h => simp [h]
  refine ⟨?_, ?_, ?_, ?_⟩
  · rw [hcalls]; split
    · simp
    · split <;> simp
  · intro b hb
    rw [hcalls] at hb
    split at hb
    · simp at hb
    · split at hb
      · simp at hb
      · simpa using hb
  · intro fid _ c hc hfresh b hb
    rw [hcalls] at hb
    split at hb
    · simp at hb
    · split at hb
      · simp at hb
      · simp only [List.mem_singleton] at hb
        subst hb
        intro hin
        have := (List.mem_filter.mp hin).2
        rw [hc] at this
        simp only [decide_eq_true_eq] at this
        exact absurd this (by simp; linarith)
  · intro fid hfid c hc hstale
    have hneed : fid ∈ needOf now cache fids := by
      apply List.mem_filter.mpr
      refine ⟨hfid, ?_⟩
      rw [hc]
      simpa using hstale
    have hne : needOf now cache fids ≠ [] := by
      intro h; rw [h] at hneed; simp at hneed
    have hfne : fids ≠ [] := by
      intro h; rw [h] at hfid; simp at hfid
    refine ⟨needOf now cache fids, ?_, hneed⟩
    rw [hcalls]
    simp [hfne, hne]

/-- Concrete lookup oracle for the cache witnesses: always fails. -/
def failLookup : List JNum → Option (List URec) := fun _ => none

/-- Concrete cache for the C6 witness: fid 1 fetched at t=0 (stale at
t=700000), fid 2 fetched at t=650000 (fresh at t=700000). -/
def witnessCache : List (JNum × CacheEntry) :=
  [(.val 1, { snap := {}, ts := 0 }), (.val 2, { snap := {}, ts := 650000 })]

/-- Witness for claim C6: at `now = 700000` the stale fid 1 is in the
single issued batch and the fresh fid 2 is in none. -/
theorem claim6_witness :
    (JNum.val 1) ∈ ([JNum.val 1, .val 2, .val 3] : List JNum)
    ∧ alookup witnessCache (.val 1) = some { snap := {}, ts := 0 }
    ∧ (700000 : ℚ) - 0 > CACHE_TTL_MS
    ∧ (∃ b ∈ (fetchUsersByFids failLookup 700000 witnessCache
        [.val 1, .val 2, .val 3]).calls, (JNum.val 1) ∈ b)
    ∧ (∀ b ∈ (fetchUsersByFids failLookup 700000 witnessCache
        [.val 1, .val 2, .val 3]).calls, (JNum.val 2) ∉ b) :=
  ⟨by decide, by decide, by norm_num [CACHE_TTL_MS],
    (claim6_cache_ttl_batching failLookup 700000 witnessCache
      [.val 1, .val 2, .val 3]).2.2.2 (.val 1) (by decide)
      { snap := {}, ts := 0 } (by decide)
      (by norm_num [CACHE_TTL_MS]),
    (claim6_cache_ttl_batching failLookup 700000 witnessCache
      [.val 1, .val 2, .val 3]).2.2.1 (.val 2) (by decide)
      { snap := {}, ts := 650000 } (by decide)
      (by norm_num [CACHE_TTL_MS])⟩

/-- Claim C10: cache entries come only from returned lookup records —
a failed lookup leaves the whole cache unchanged, a fid omitted from
the response keeps its previous entry (in particular no placeholder is
written), and a fid still missing from the cache is fetched again by
any later invocation that requests it. -/
theorem claim10_cache_only_from_lookup
    (lkp : List JNum → Option (List URec)) (now : ℚ)
    (cache : List (JNum × CacheEntry)) (fids : List JNum) :
    (lkp (needOf now cache fids) = none →
      (fetchUsersByFids lkp now cache fids).cache = cache)
    ∧ (∀ recs, lkp (needOf now cache fids) = some recs →
        ∀ fid, fid ∉ recs.map (fun u => jsToNumber u.fid) →
        alookup (fetchUsersByFids lkp now cache fids).cache fid
          = alookup cache fid)
    ∧ (∀ (cache' : List (JNum × CacheEntry)) (now' : ℚ)
        (fids' : List JNum) (fid : JNum),
        alookup cache' fid = none → fid ∈ fids' →
        fid ∈ needOf now' cache' fids') := by
  have hcache : ∀ h : lkp (needOf now cache fids) = none,
      (fetchUsersByFids lkp now cache fids).cache = cache := by
    intro h
    unfold fetchUsersByFids
    split
    · rfl
    · dsimp only
      split
      · rfl
      · rw [h]
  refine ⟨hcache, ?_, ?_⟩
  · intro recs hrecs fid hfid
    unfold fetchUsersByFids
    split
    · rfl
    · dsimp only
      split
      · rfl
      · rw [hrecs]
        exact alookup_foldl_aset recs now fid cache hfid
  · intro cache' now' fids' fid hnone hmem
    apply List.mem_filter.mpr
    refine ⟨hmem, ?_⟩
    rw [hnone]

/-- Witness for claim C10: a failed lookup leaves the concrete witness
cache unchanged, and the never-cached fid 3 is re-requested. -/
theorem claim10_witness :
    failLookup (needOf 700000 witnessCache [JNum.val 1, .val 3]) = none
    ∧ (fetchUsersByFids failLookup 700000 witnessCache
        [JNum.val 1, .val 3]).cache = witnessCache
    ∧ alookup witnessCache (.val 3) = none
    ∧ (JNum.val 3) ∈ needOf 700000 witnessCache [JNum.val 1, .val 3] :=
  ⟨rfl,
    (claim10_cache_only_from_lookup failLookup 700000 witnessCache
      [JNum.val 1, .val 3]).1 rfl,
    by decide,
    (claim10_cache_only_from_lookup failLookup 700000 witnessCache
      [JNum.val 1, .val 3]).2.2 witnessCache 700000 [JNum.val 1, .val 3]
      (.val 3) (by decide) (by decide)⟩

/-!
## Theorems about root detection (claim C7)
-/

/-- Spec-side notion for claim C7, following the spec's words: some
parent-cast reference field (`parent_hash`, `parentHash`,
`parent.hash`, `parent_merkle_root`, `replyParentMerkleRoot`,
`rootParentHash`) is present (non-nullish) on the cast object. -/
def hasParentCastRef (c : CastObj) : Bool :=
  !isNullish c.parent_hash || !isNullish c.parentHash
  || (match c.parent with | some p => !isNullish p.hash | none => false)
  || !isNullish c.parent_merkle_root || !isNullish c.replyParentMerkleRoot
  || !isNullish c.rootParentHash

/-- The first non-nullish candidate of the parent-cast `??` chain of
server.js line 178 (`none` when every candidate is nullish). -/
def parentChainFirst (c : CastObj) : Option JSVal :=
  if ¬ isNullish c.parent_hash then some c.parent_hash
  else if ¬ isNullish c.parentHash then some c.parentHash
  else if ¬ isNullish (match c.parent with
      | none => JSVal.undefined | some p => p.hash) then
    some (match c.parent with | none => JSVal.undefined | some p => p.hash)
  else if ¬ isNullish c.parent_merkle_root then some c.parent_merkle_root
  else if ¬ isNullish c.replyParentMerkleRoot then
    some c.replyParentMerkleRoot
  else if ¬ isNullish c.rootParentHash then some c.rootParentHash
  else none

/-- A nullish left operand falls through `??`. -/
theorem jnn_nullish {a : JSVal} (h : isNullish a = true) (b : JSVal) :
    jnn a b = b := by
  cases a <;> simp_all [isNullish, jnn]

/-- A non-nullish left operand short-circuits `??`. -/
theorem jnn_not_nullish {a : JSVal} (h : isNullish a = false) (b : JSVal) :
    jnn a b = a := by
  cases a <;> simp_all [isNullish, jnn]

/-- The `??` chain evaluates to its first non-nullish candidate. -/
theorem parentCastHash_of_first {c : CastObj} {v : JSVal}
    (h : parentChainFirst c = some v) : parentCastHash c = v := by
  unfold parentChainFirst at h
  unfold parentCastHash
  split at h
  next hc =>
    obtain rfl := Option.some.inj h
    exact jnn_not_nullish (by simpa using hc) _
  next hc1 =>
    rw [jnn_nullish (by simpa using hc1)]
    split at h
    next hc =>
      obtain rfl := Option.some.inj h
      exact jnn_not_nullish (by simpa using hc) _
    next hc2 =>
      rw [jnn_nullish (by simpa using hc2)]
      split at h
      next hc =>
        obtain rfl := Option.some.inj h
        exact jnn_not_nullish (by simpa using hc) _
      next hc3 =>
        rw [jnn_nullish (by simpa using hc3)]
        split at h
        next hc =>
          obtain rfl := Option.some.inj h
          exact jnn_not_nullish (by simpa using hc) _
        next hc4 =>
          rw [jnn_nullish (by simpa using hc4)]
          split at h
          next hc =>
            obtain rfl := Option.some.inj h
            exact jnn_not_nullish (by simpa using hc) _
          next hc5 =>
            rw [jnn_nullish (by simpa using hc5)]
            split at h
            next hc =>
              exact Option.some.inj h
            next hc6 =>
              simp at h

/-- Claim C7 (amended): `isRoot` is `isRootOf` of the `c`-object; with
no parent-cast field present the post is root (even with channel
fields present, which never influence the result); and when the first
present field of the precedence chain holds a truthy (non-empty)
value the post is non-root. -/
theorem claim7_root_detection :
    (∀ (now : ℚ) (evt : Evt),
        (extractCastCreated now evt).isRoot = isRootOf (castOf evt))
    ∧ (∀ c : CastObj, hasParentCastRef c = false → isRootOf c = true)
    ∧ (∀ (c : CastObj) (u1 u2 : JSVal) (ch : Option ChannelObj),
        isRootOf { c with parent_url := u1, parentUri := u2, channel := ch }
          = isRootOf c)
    ∧ (∀ (c : CastObj) (v : JSVal), parentChainFirst c = some v →
        jsTruthy v = true → isRootOf c = false) := by
  refine ⟨fun now evt => rfl, ?_, ?_, ?_⟩
  · intro c h
    simp only [hasParentCastRef, Bool.or_eq_false_iff,
      Bool.not_eq_false'] at h
    obtain ⟨⟨⟨⟨⟨h1, h2⟩, h3⟩, h4⟩, h5⟩, h6⟩ := h
    have hp : isNullish (match c.parent with
        | none => JSVal.undefined | some p => p.hash) = true := by
      cases hc : c.parent with
      | none => rfl
      | some p => rw [hc] at h3; simpa using h3
    unfold isRootOf parentCastHash
    rw [jnn_nullish h1, jnn_nullish h2, jnn_nullish hp, jnn_nullish h4,
      jnn_nullish h5]
    revert h6
    cases c.rootParentHash <;> simp [isNullish, jsTruthy]
  · intro c u1 u2 ch
    rfl
  · intro c v hfirst htruthy
    unfold isRootOf
    rw [parentCastHash_of_first hfirst, htruthy]
    rfl

/-- The concrete reply cast used as witness input for claim C7. -/
def witnessCast : CastObj := { parent_hash := .str "0xdef" }

/-- Witness for claim C7 at a concrete reply cast whose `parent_hash`
is a non-empty hash: classified non-root. -/
theorem claim7_witness :
    parentChainFirst witnessCast = some (.str "0xdef")
    ∧ jsTruthy (.str "0xdef") = true
    ∧ isRootOf witnessCast = false :=
  ⟨by decide, by decide,
    claim7_root_detection.2.2.2 witnessCast
      (.str "0xdef") (by decide) (by decide)⟩

/-- The cast object of the C7 counterexample payload: `parent_hash`
is present but empty and `parentHash` is a present non-empty hash. -/
def cexCast : CastObj :=
  { parent_hash := .str "", parentHash := .str "0xabc" }

/-- Concrete cast payload refuting claim C7 as stated. -/
def cexCastEvt : Evt :=
  { type := .str "cast.created", data := some { cast := some cexCast } }

/-- Counterexample to claim C7 as stated: this payload carries a
present (and even truthy) parent-cast reference field, yet the code
classifies it root, because the `??` chain stops at the present-but-
empty `parent_hash`, whose empty string is falsy under `!`. -/
theorem claim7_counterexample :
    hasParentCastRef (castOf cexCastEvt) = true
    ∧ isNullish (castOf cexCastEvt).parentHash = false
    ∧ jsTruthy (castOf cexCastEvt).parentHash = true
    ∧ (extractCastCreated 0 cexCastEvt).isRoot = true := by
  decide

/-!
## Theorems about numeric-identifier extraction (claim C8)
-/

/-- Claim C8 (amended): every extracted identifier is the JS
`Number(...)` coercion of its candidate chain — a numeric source field
passes through unchanged (with no integer rounding), a fully missing
chain gives `NaN`, and on strings the coercion sends `""` to `0`;
`null` also coerces to `0`.  The extractors are total functions, so no
exception is ever raised. -/
theorem claim8_identifier_coercion :
    (∀ (now : ℚ) (evt : Evt) (q : ℚ), followActorChain evt.d = .num q →
        (extractFollow now evt).actor_fid = .val q)
    ∧ (∀ (now : ℚ) (evt : Evt), followActorChain evt.d = .undefined →
        (extractFollow now evt).actor_fid = .nan)
    ∧ (∀ (now : ℚ) (evt : Evt) (q : ℚ), followTargetChain evt.d = .num q →
        (extractFollow now evt).target_fid = .val q)
    ∧ (∀ (now : ℚ) (evt : Evt), followTargetChain evt.d = .undefined →
        (extractFollow now evt).target_fid = .nan)
    ∧ (∀ (now : ℚ) (evt : Evt) (q : ℚ), userUpdatedFidChain evt.d = .num q →
        (extractUserUpdated now evt).fid = .val q)
    ∧ (∀ (now : ℚ) (evt : Evt), userUpdatedFidChain evt.d = .undefined →
        (extractUserUpdated now evt).fid = .nan)
    ∧ (∀ (now : ℚ) (evt : Evt) (q : ℚ), pfld evt.d.trader PObj.fid = .num q →
        (extractTradeCreated now evt).traderFid = .val q)
    ∧ (∀ (now : ℚ) (evt : Evt), pfld evt.d.trader PObj.fid = .undefined →
        (extractTradeCreated now evt).traderFid = .nan)
    ∧ jsToNumber (.str "") = .val 0
    ∧ jsToNumber .null = .val 0 := by
  refine ⟨?_, ?_, ?_, ?_, ?_, ?_, ?_, ?_, by decide, by decide⟩
  · intro now evt q h; simp [extractFollow, h, jsToNumber]
  · intro now evt h; simp [extractFollow, h, jsToNumber]
  · intro now evt q h; simp [extractFollow, h, jsToNumber]
  · intro now evt h; simp [extractFollow, h, jsToNumber]
  · intro now evt q h; simp [extractUserUpdated, h, jsToNumber]
  · intro now evt h; simp [extractUserUpdated, h, jsToNumber]
  · intro now evt q h; simp [extractTradeCreated, h, jsToNumber]
  · intro now evt h; simp [extractTradeCreated, h, jsToNumber]

/-- Witness for claim C8 at a concrete numeric actor fid. -/
theorem claim8_witness :
    followActorChain (Evt.d { data := some { actor_fid := .num 5 } })
      = .num 5
    ∧ (extractFollow 0 { data := some { actor_fid := .num 5 } }).actor_fid
      = .val 5 :=
  ⟨by decide,
    claim8_identifier_coercion.1 0 { data := some { actor_fid := .num 5 } }
      5 (by decide)⟩

/-- Concrete follow payload refuting claim C8 as stated: a fractional
numeric `actor_fid` and an empty-string `target_fid`. -/
def cexFollowEvt : Evt :=
  { data := some { actor_fid := .num (7/2), target_fid := .str "" } }

/-- Counterexample to claim C8 as stated: a numeric source field of
3.5 extracts to 3.5 (not an integer — its denominator is 2), and the
non-numeric empty-string source normalizes to 0, not to an absent
value. -/
theorem claim8_counterexample :
    (extractFollow 0 cexFollowEvt).actor_fid = .val (7/2)
    ∧ ((7 : ℚ)/2).den = 2
    ∧ (extractFollow 0 cexFollowEvt).target_fid = .val 0 :=
  ⟨rfl, by norm_num, rfl⟩

/-!
## Theorems about the ProfileDiffEngine (claim C9)
-/

/-- `addChange` on equal values emits nothing. -/
theorem addChange_self (k : String) (v : JSVal) : addChange k v v = [] := by
  simp [addChange]

/-- Claim C9 (amended): when the resolved old and new snapshots agree
on every canonical field, the diff loop emits no change line, and the
final output is the single generic placeholder line — unless the
payload supplied a non-empty changed-field-name list, in which case
the output is instead one current-value line per named field. -/
theorem claim9_diff_equal_snapshots (oldObj : Option PObj) (newObj : PObj)
    (uf : Option (List String))
    (heq : ∀ k ∈ keysToCheck, optField oldObj k = getField newObj k) :
    diffLines oldObj newObj = []
    ∧ userUpdatedLines oldObj newObj uf
      = (match uf with
         | some (k :: ks) => (k :: ks).map (currentValueLine newObj)
         | _ => ["(profile fields updated)"]) := by
  have h1 := heq "username" (by simp [keysToCheck])
  have h2 := heq "display_name" (by simp [keysToCheck])
  have h3 := heq "bio" (by simp [keysToCheck])
  have h4 := heq "pfp_url" (by simp [keysToCheck])
  have h5 := heq "location" (by simp [keysToCheck])
  have h6 := heq "website" (by simp [keysToCheck])
  have hdiff : diffLines oldObj newObj = [] := by
    simp only [diffLines, keysToCheck, List.foldl_cons, List.foldl_nil,
      h1, h2, h3, h4, h5, h6, addChange_self, List.append_nil, ite_self]
  refine ⟨hdiff, ?_⟩
  rcases uf with _ | ⟨_ | ⟨k, ks⟩⟩ <;>
    simp [userUpdatedLines, hdiff]

/-- Witness inputs for claim C9: identical one-field snapshots and no
updated-field list. -/
def witnessOldObj : Option PObj := some { bio := .str "a" }

/-- The matching new snapshot for the C9 witness. -/
def witnessNewObj : PObj := { bio := .str "a" }

/-- Witness for claim C9: equal snapshots and no updated-field list
give exactly the generic placeholder line. -/
theorem claim9_witness :
    (∀ k ∈ keysToCheck, optField witnessOldObj k = getField witnessNewObj k)
    ∧ userUpdatedLines witnessOldObj witnessNewObj none
      = ["(profile fields updated)"] :=
  ⟨by decide,
    (claim9_diff_equal_snapshots witnessOldObj witnessNewObj none
      (by decide)).2⟩

/-- The `data` object of the C9 counterexample payload: `before` and
`after` agree on every canonical field, and a one-element
`updated_fields` list is supplied. -/
def cexUpdData : WData :=
  { fid := .num 7, before := some { bio := .str "a" },
    after := some { bio := .str "a" }, updated_fields := some ["bio"] }

/-- Concrete `user.updated` payload refuting claim C9 as stated. -/
def cexUpdEvt : Evt :=
  { id := .str "u1", type := .str "user.updated", data := some cexUpdData }

/-- The extracted form of the C9 counterexample payload. -/
def cexUpdInfo : UserUpdatedInfo := extractUserUpdated 0 cexUpdEvt

/-- Counterexample to claim C9 as stated: the resolved snapshots agree
on every canonical field (and both payload objects are non-empty, so
they are the resolved snapshots), yet the emitted output is the
per-field current-value line `BIO: a`, not the generic placeholder. -/
theorem claim9_counterexample :
    (∀ k ∈ keysToCheck,
      optField (some cexUpdInfo.before) k = getField cexUpdInfo.after k)
    ∧ 0 < objKeysLen cexUpdInfo.before
    ∧ 0 < objKeysLen cexUpdInfo.after
    ∧ userUpdatedLines (some cexUpdInfo.before) cexUpdInfo.after
        cexUpdInfo.updatedFields = ["BIO: a"] := by
  decide

/-!
## Theorems about the webhook handler (claims C1, C2 and C3)
-/

/-- The follow branch always answers 200. -/
theorem followBranch_status (cfg : Config)
    (lkp : List JNum → Option (List URec)) (now : ℚ) (st : ServerState)
    (evt : Evt) : (followBranch cfg lkp now st evt).1 = 200 := by
  unfold followBranch
  dsimp only
  repeat' split
  all_goals rfl

/-- The user-updated branch always answers 200. -/
theorem userUpdatedBranch_status (cfg : Config)
    (lkp : List JNum → Option (List URec)) (now : ℚ) (st : ServerState)
    (evt : Evt) : (userUpdatedBranch cfg lkp now st evt).1 = 200 := by
  unfold userUpdatedBranch
  dsimp only

/-- The cast branch always answers 200. -/
theorem castBranch_status (cfg : Config)
    (lkp : List JNum → Option (List URec)) (now : ℚ) (st : ServerState)
    (evt : Evt) : (castBranch cfg lkp now st evt).1 = 200 := by
  unfold castBranch
  dsimp only
  repeat' split
  all_goals rfl

/-- The trade branch always answers 200. -/
theorem tradeBranch_status (cfg : Config)
    (lkp : List JNum → Option (List URec)) (now : ℚ) (st : ServerState)
    (evt : Evt) : (tradeBranch cfg lkp now st evt).1 = 200 := by
  unfold tradeBranch
  dsimp only
  repeat' split
  all_goals rfl

/-- Every path of the post-parse handler body answers 200. -/
theorem handleParsed_status (cfg : Config)
    (lkp : List JNum → Option (List URec)) (now : ℚ) (st : ServerState)
    (evt : Evt) : (handleParsed cfg lkp now st evt).1 = 200 := by
  rcases hsb : seenBefore evt.id st.seen with ⟨dup, seen'⟩
  unfold handleParsed
  rw [hsb]
  dsimp only
  split
  · rfl
  · split
    · exact followBranch_status ..
    · split
      · exact userUpdatedBranch_status ..
      · split
        · exact castBranch_status ..
        · split
          · exact tradeBranch_status ..
          · rfl

/-- Claim C1 (amended): with a passing signature check, a JSON parse
failure is answered with HTTP 500 (the catch block), while any payload
that parses — including ones with missing identifiers or unknown type
— is answered with 200. -/
theorem claim1_parse_failure_500 (cfg : Config)
    (lkp : List JNum → Option (List URec)) (hmac : String → String → String)
    (now : ℚ) (st : ServerState) (sig : Option String) (body : String)
    (hv : verifySignature hmac cfg.neynarSecret sig body = true) :
    (webhookPost cfg lkp hmac now st sig body none).1 = 500
    ∧ ∀ evt, (webhookPost cfg lkp hmac now st sig body (some evt)).1 = 200 := by
  constructor
  · simp [webhookPost, hv]
  · intro evt
    simpa [webhookPost, hv] using handleParsed_status cfg lkp now st evt

/-- A constant digest function used to instantiate the abstract HMAC
in concrete witnesses. -/
def hmacConst : String → String → String := fun _ _ => "digest"

/-- Default (empty) configuration: no secret, no channels. -/
def cfg0 : Config := {}

/-- The empty process state. -/
def st0 : ServerState := {}

/-- Witness for claim C1's amended theorem: with no secret configured
the check passes, and an unparsable body is answered 500. -/
theorem claim1_witness :
    verifySignature hmacConst cfg0.neynarSecret none "not json" = true
    ∧ (webhookPost cfg0 failLookup hmacConst 0 st0 none "not json" none).1
      = 500 :=
  ⟨rfl,
    (claim1_parse_failure_500 cfg0 failLookup hmacConst 0 st0 none
      "not json" rfl).1⟩

/-- Counterexample to claim C1 as stated: a request whose body fails
to parse is answered 500, not 200. -/
theorem claim1_counterexample :
    (webhookPost cfg0 failLookup hmacConst 0 st0 none "not json" none).1
      ≠ 200
    ∧ (webhookPost cfg0 failLookup hmacConst 0 st0 none "not json" none).1
      = 500 := by
  decide

/-- Claim C2 (amended): a request with no signature header passes
verification unconditionally (regardless of the configured secret) and
is processed; only a present, non-empty signature header that
mismatches the digest while a secret is configured is answered 401
with no further processing. -/
theorem claim2_missing_signature (cfg : Config)
    (lkp : List JNum → Option (List URec)) (hmac : String → String → String)
    (now : ℚ) (st : ServerState) (s body : String) (parsed : Option Evt)
    (hsec : cfg.neynarSecret ≠ "") (hs : s ≠ "")
    (hneq : hmac cfg.neynarSecret body ≠ s) :
    (∀ (hmac' : String → String → String) (secret body' : String),
        verifySignature hmac' secret none body' = true)
    ∧ webhookPost cfg lkp hmac now st (some s) body parsed
      = (401, [], st) := by
  constructor
  · intro hmac' secret body'
    rfl
  · have hv : verifySignature hmac cfg.neynarSecret (some s) body = false := by
      unfold verifySignature
      dsimp only
      rw [if_neg (by simp [hs, hsec])]
      simp [hneq]
    simp [webhookPost, hv]

/-- Configuration with a non-empty webhook secret, for the C2
theorems. -/
def cfgC2 : Config := { neynarSecret := "sek" }

/-- Witness for claim C2's amended theorem at a concrete mismatching
signature. -/
theorem claim2_witness :
    cfgC2.neynarSecret ≠ "" ∧ ("wrong" : String) ≠ ""
    ∧ hmacConst cfgC2.neynarSecret "body" ≠ "wrong"
    ∧ webhookPost cfgC2 failLookup hmacConst 0 st0 (some "wrong") "body"
        none = (401, [], st0) :=
  ⟨by decide, by decide, by decide,
    (claim2_missing_signature cfgC2 failLookup hmacConst 0 st0 "wrong"
      "body" none (by decide) (by decide) (by decide)).2⟩

/-- An event of unrecognized type, used with the C2 counterexample. -/
def cexNoSigEvt : Evt := { id := .str "n1", type := .str "other.event" }

/-- Counterexample to claim C2 as stated: with the secret `"sek"`
configured and no signature header at all, verification succeeds and
the request is fully processed with a 200 answer — not 401. -/
theorem claim2_counterexample :
    cfgC2.neynarSecret ≠ ""
    ∧ verifySignature hmacConst cfgC2.neynarSecret none "body" = true
    ∧ (webhookPost cfgC2 failLookup hmacConst 0 st0 none "body"
        (some cexNoSigEvt)).1 = 200 := by
  decide

/-- The trade branch dispatches nothing when the trade chat id is
unset. -/
theorem tradeBranch_env_none (cfg : Config)
    (lkp : List JNum → Option (List URec)) (now : ℚ) (st : ServerState)
    (evt : Evt) (h : cfg.chatTradeEnv = none) :
    (tradeBranch cfg lkp now st evt).2.1 = [] := by
  unfold tradeBranch
  dsimp only
  split
  · rfl
  · rw [h]
    rfl

/-- Claim C3 (amended): the general-activity channel does default to
the follow channel when unset, but the trade channel does not — with
`TELEGRAM_CHAT_ID_TRADE` unset, handling any `trade.created` event
dispatches no notification at all (silent drop), regardless of the
other configured channels. -/
theorem claim3_trade_channel_no_default :
    (∀ cfg : Config, cfg.chatActivityEnv = none →
        tgChatIdActivity cfg = cfg.chatFollowEnv)
    ∧ (∀ (cfg : Config) (lkp : List JNum → Option (List URec)) (now : ℚ)
        (st : ServerState) (evt : Evt), cfg.chatTradeEnv = none →
        evt.type = .str "trade.created" →
        (handleParsed cfg lkp now st evt).2.1 = []) := by
  constructor
  · intro cfg h
    simp [tgChatIdActivity, h, envTruthy]
  · intro cfg lkp now st evt htrade htype
    rcases hsb : seenBefore evt.id st.seen with ⟨dup, seen'⟩
    unfold handleParsed
    rw [hsb]
    dsimp only
    split
    · rfl
    · rw [htype]
      rw [if_neg (by decide), if_neg (by decide), if_neg (by decide)]
      exact tradeBranch_env_none cfg lkp now _ evt htrade

/-- The trader object of the concrete C3 trade payload. -/
def cexTradeTrader : PObj := { fid := .num 7, username := .str "bob" }

/-- The `data` object of the concrete C3 trade payload. -/
def cexTradeData : WData := { trader := some cexTradeTrader }

/-- A concrete well-formed `trade.created` event. -/
def cexTradeEvt : Evt :=
  { id := .str "t1", type := .str "trade.created",
    data := some cexTradeData }

/-- Configuration with bot token and follow channel set but the trade
channel unset, as in claim C3. -/
def cfgC3 : Config := { tgToken := some "tok", chatFollowEnv := some "F" }

/-- Witness for claim C3's amended theorem at the concrete trade
event. -/
theorem claim3_witness :
    cfgC3.chatActivityEnv = none
    ∧ tgChatIdActivity cfgC3 = cfgC3.chatFollowEnv
    ∧ cfgC3.chatTradeEnv = none
    ∧ cexTradeEvt.type = .str "trade.created"
    ∧ (handleParsed cfgC3 failLookup 5 st0 cexTradeEvt).2.1 = [] :=
  ⟨rfl, claim3_trade_channel_no_default.1 cfgC3 rfl, rfl, rfl,
    claim3_trade_channel_no_default.2 cfgC3 failLookup 5 st0 cexTradeEvt
      rfl rfl⟩

/-- Counterexample to claim C3 as stated: with only the follow channel
configured, a valid trade event is answered 200 but dispatched to no
channel at all (in particular not to `"F"`); the very same event is
dispatched to `"T"` once the trade channel is configured, showing the
drop is caused by the unset trade channel, which does not inherit the
follow channel. -/
theorem claim3_counterexample :
    (handleParsed cfgC3 failLookup 0 st0 cexTradeEvt).2.1 = []
    ∧ (handleParsed { cfgC3 with chatTradeEnv := some "T" } failLookup 0
        st0 cexTradeEvt).2.1 = ["T"]
    ∧ (handleParsed cfgC3 failLookup 0 st0 cexTradeEvt).1 = 200 := by
  decide

end TrackFollow
